import Mathlib

/-!
Shallow embedding of the reservation backend in `src/qr.py`.

The Python module defines client-facing pydantic models (`CUnixTime`, `CSlot`,
`CSpot`, `CTicket`), peewee ORM rows (`PSpot`, `PSlot`, `PTicket`) stored in a
SQLite database, and the server operations `make_slot`, `make_spot`,
`get_available`, `get_spot_id`, `reserve_ticket`, `redeem_ticket`.

Here the database is a record of three lists of rows, SQL `SELECT ... WHERE`
becomes `List.filter`, `ORDER BY start` becomes an insertion sort on `start`,
a raised `Exception` becomes `Except.error`, and `row.save()` (an UPDATE by
primary key) becomes a map over the table replacing every row whose primary
key matches by the saved object.  The random `uuid4`-derived identifiers and
the wall-clock default for `now` are passed in as explicit parameters.
-/

/-- Python `CUnixTime`: integer unix seconds. -/
structure CUnixTime where
  seconds : Int
deriving Repr, DecidableEq

/-- Python `CSlot`: client facing reservable interval.  The pydantic field
`capacity : Optional[int] = Field((1<<13), ge=0, le=(1<<13))` has default value
`8192`. -/
structure CSlot where
  start : CUnixTime
  «end» : Option CUnixTime
  capacity : Option Int := some 8192
  note : Option String := none
deriving Repr, DecidableEq

/-- Python `CTicket`: ticket view composed by the backend. -/
structure CTicket where
  slot : CSlot
  spot_name : String
  spot_id : Int
  ticket_id : Int
  note : Option String := none
deriving Repr, DecidableEq

/-- Python ORM row `PSpot`. -/
structure PSpot where
  id : Int
  name : String
  note : Option String
deriving Repr, DecidableEq

/-- Python ORM row `PSlot`. -/
structure PSlot where
  id : Int
  spot_id : Int
  start : Int
  «end» : Option Int
  capacity : Int
  note : Option String
  reservations : Int
deriving Repr, DecidableEq

/-- Python ORM row `PTicket`. -/
structure PTicket where
  ticket_id : Int
  slot_id : Int
  spot_id : Int
  presentments : Int
  note : Option String
  serial_number : Int
deriving Repr, DecidableEq

/-- The SQLite database: one list of rows per table. -/
structure DB where
  spots : List PSpot
  slots : List PSlot
  tickets : List PTicket
deriving Repr, DecidableEq

/-- The exceptions the endpoints raise, identified by their message content:
`get_spot_id` raises `Exception(f'spot name {spot_name} associated with
{len(spots)} IDs')` and `redeem_ticket` raises `Exception(f'No ticket issuance
found for {ticket_id}')`. -/
inductive Err where
  | spotNameAssociatedWithIDs (spot_name : String) (count : Nat)
  | noTicketIssuanceFound (ticket_id : Int)
deriving Repr, DecidableEq

/-- Pydantic validation of a `CSlot` payload.  `capacity` distinguishes an
omitted field (`none`, which takes the default `8192`), an explicit JSON
`null` (`some none`, accepted because the field is `Optional`), and an
explicit integer (`some (some c)`, checked against `ge=0, le=8192`). -/
def mkCSlot (start : CUnixTime) («end» : Option CUnixTime)
    (capacity : Option (Option Int)) (note : Option String) :
    Except String CSlot :=
  match capacity with
  | none => Except.ok { start := start, «end» := «end», capacity := some 8192, note := note }
  | some none => Except.ok { start := start, «end» := «end», capacity := none, note := note }
  | some (some c) =>
      if 0 ≤ c ∧ c ≤ 8192 then
        Except.ok { start := start, «end» := «end», capacity := some c, note := note }
      else
        Except.error "capacity out of range"

/-- Python `make_slot(cslot, spot_id)`: inserts a `PSlot` row with
`reservations=0`.  The random `make_id(cslot)` is the `slot_id` parameter.
`capacity` is a NOT NULL integer column, so persisting a `None` capacity
fails at the database layer. -/
def make_slot (cslot : CSlot) (spot_id : Int) (slot_id : Int) :
    Except String PSlot :=
  match cslot.capacity with
  | some c =>
      Except.ok { id := slot_id, spot_id := spot_id, start := cslot.start.seconds,
                  «end» := cslot.«end».map CUnixTime.seconds, capacity := c,
                  note := cslot.note, reservations := 0 }
  | none => Except.error "NOT NULL constraint failed: pslot.capacity"

/-- The availability predicate of `get_available`'s WHERE clause:
`(PSlot.reservations <= PSlot.capacity) & (PSlot.spot_id == spot_id) &
(PSlot.start >= now)`. -/
def availableFilter (spot_id now : Int) (s : PSlot) : Bool :=
  decide (s.reservations ≤ s.capacity) && decide (s.spot_id = spot_id) &&
    decide (s.start ≥ now)

/-- The ordering relation of `get_available`'s `ORDER BY PSlot.start`. -/
def slotLE (a b : PSlot) : Prop := a.start ≤ b.start

instance : DecidableRel slotLE := fun a b =>
  inferInstanceAs (Decidable (a.start ≤ b.start))

instance : IsTotal PSlot slotLE := ⟨fun a b => Int.le_total a.start b.start⟩

instance : IsTrans PSlot slotLE := ⟨fun _ _ _ h1 h2 => le_trans h1 h2⟩

/-- Python `get_available(spot_id, now)`: a read-only SELECT returning the
slots of `spot_id` with `reservations <= capacity` and `start >= now`,
ordered by `start`.  The Python wall-clock default for `now` is an explicit
argument here. -/
def get_available (db : DB) (spot_id : Int) (now : Int) : List PSlot :=
  List.insertionSort slotLE (db.slots.filter (availableFilter spot_id now))

/-- Python `get_spot_id(spot_name)`: raises unless exactly one `PSpot` row
has that name. -/
def get_spot_id (db : DB) (spot_name : String) : Except Err Int :=
  match db.spots.filter (fun s => decide (s.name = spot_name)) with
  | [s] => Except.ok s.id
  | l => Except.error (Err.spotNameAssociatedWithIDs spot_name l.length)

/-- Python `reserve_ticket(spot_name, note)`.  The random 64-bit
`ticket_id` and the wall clock `now` are explicit parameters.  On the
success path it inserts a `PTicket` row with `serial_number` equal to the
chosen slot's pre-increment `reservations`, builds the `CTicket` view (the
`CSlot` view is constructed without `capacity`, so that field takes its
pydantic default `8192`, and `end` uses Python truthiness: a stored `end`
of `0` or `NULL` yields `None`), then increments and saves the slot's
`reservations` counter. -/
def reserve_ticket (db : DB) (spot_name : String) (note : Option String)
    (ticket_id : Int) (now : Int) : Except Err (Option CTicket × DB) :=
  match get_spot_id db spot_name with
  | Except.error e => Except.error e
  | Except.ok spot_id =>
    match get_available db spot_id now with
    | [] => Except.ok (none, db)
    | pslot :: _ =>
      let tk : PTicket :=
        { ticket_id := ticket_id, slot_id := pslot.id, spot_id := spot_id,
          presentments := 0, note := note, serial_number := pslot.reservations }
      let cticket : CTicket :=
        { slot :=
            { start := { seconds := pslot.start },
              «end» :=
                match pslot.«end» with
                | some e => if e = 0 then none else some { seconds := e }
                | none => none,
              capacity := some 8192,
              note := pslot.note },
          spot_name := spot_name, spot_id := spot_id, ticket_id := ticket_id,
          note := note }
      let slots2 := db.slots.map (fun s =>
        if s.id = pslot.id then
          { pslot with reservations := pslot.reservations + 1 }
        else s)
      Except.ok (some cticket,
        { db with tickets := db.tickets ++ [tk], slots := slots2 })

/-- The WHERE clause of `redeem_ticket`'s ticket lookup:
`(PTicket.ticket_id == ticket_id) & (PTicket.spot_id == spot_id)`. -/
def ticketFilter (spot_id ticket_id : Int) (t : PTicket) : Bool :=
  decide (t.ticket_id = ticket_id ∧ t.spot_id = spot_id)

/-- Python `redeem_ticket(spot_id, ticket_id)`: takes the first row matching
`(ticket_id, spot_id)` (raising if there is none), saves it with
`presentments` incremented, and returns the pre-increment value. -/
def redeem_ticket (db : DB) (spot_id : Int) (ticket_id : Int) :
    Except Err (Int × DB) :=
  match db.tickets.filter (ticketFilter spot_id ticket_id) with
  | [] => Except.error (Err.noTicketIssuanceFound ticket_id)
  | pticket :: _ =>
    let tickets2 := db.tickets.map (fun t =>
      if t.ticket_id = pticket.ticket_id then
        { pticket with presentments := pticket.presentments + 1 }
      else t)
    Except.ok (pticket.presentments, { db with tickets := tickets2 })

/-- `M` sequential calls of `redeem_ticket` on the same `(spot_id,
ticket_id)`, collecting the returned pre-increment counts. -/
def redeemSeq (db : DB) (spot_id : Int) (ticket_id : Int) :
    Nat → Except Err (List Int × DB)
  | 0 => Except.ok ([], db)
  | n + 1 =>
    match redeem_ticket db spot_id ticket_id with
    | Except.error e => Except.error e
    | Except.ok (p, db1) =>
      match redeemSeq db1 spot_id ticket_id n with
      | Except.error e => Except.error e
      | Except.ok (ps, db2) => Except.ok (p :: ps, db2)

/-- `[p, p+1, ..., p+n-1]`. -/
def seqFrom (p : Int) : Nat → List Int
  | 0 => []
  | n + 1 => p :: seqFrom (p + 1) n

deriving instance DecidableEq for Except

/-! ### Concrete example database states used as witnesses -/

/-- A spot row named `A`. -/
def spotA : PSpot := { id := 1, name := "A", note := none }

/-- A slot of spot `A` at full capacity (`reservations = capacity = 1`),
with a stored `end` of unix time `0`. -/
def slotA : PSlot :=
  { id := 10, spot_id := 1, start := 100, «end» := some 0,
    capacity := 1, note := some "evening", reservations := 1 }

/-- An issued ticket of spot `A` with no presentments yet. -/
def ticketA : PTicket :=
  { ticket_id := 77, slot_id := 10, spot_id := 1,
    presentments := 0, note := none, serial_number := 0 }

/-- A database with one spot, one full slot and one issued ticket. -/
def dbA : DB := { spots := [spotA], slots := [slotA], tickets := [ticketA] }

/-- The ticket view produced by `reserve_ticket dbA "A" none 5 50`. -/
def ctA : CTicket :=
  { slot :=
      { start := { seconds := 100 }, «end» := none,
        capacity := some 8192, note := some "evening" },
    spot_name := "A", spot_id := 1, ticket_id := 5, note := none }

/-- A database whose only spot `B` has no slots at all. -/
def dbB : DB :=
  { spots := [{ id := 2, name := "B", note := none }], slots := [],
    tickets := [] }

/-- A corrupted database holding two spot rows named `C` and no tickets. -/
def dbC : DB :=
  { spots := [{ id := 3, name := "C", note := none },
              { id := 4, name := "C", note := none }],
    slots := [], tickets := [] }

/-! ### Helper lemmas -/

theorem mem_get_available (db : DB) (spot_id now : Int) (s : PSlot) :
    s ∈ get_available db spot_id now ↔
      s ∈ db.slots ∧ s.reservations ≤ s.capacity ∧ s.spot_id = spot_id ∧
        s.start ≥ now := by
  simp [get_available, List.mem_filter, availableFilter, and_assoc]

theorem sorted_get_available (db : DB) (spot_id now : Int) :
    List.Sorted slotLE (get_available db spot_id now) :=
  List.sorted_insertionSort slotLE _

theorem reserve_ticket_success (db : DB) (spot_name : String)
    (note : Option String) (ticket_id now spot_id : Int) (pslot : PSlot)
    (rest : List PSlot)
    (hsid : get_spot_id db spot_name = Except.ok spot_id)
    (hav : get_available db spot_id now = pslot :: rest) :
    reserve_ticket db spot_name note ticket_id now =
      Except.ok (some
        { slot :=
            { start := { seconds := pslot.start },
              «end» :=
                match pslot.«end» with
                | some e => if e = 0 then none else some { seconds := e }
                | none => none,
              capacity := some 8192,
              note := pslot.note },
          spot_name := spot_name, spot_id := spot_id, ticket_id := ticket_id,
          note := note },
        { db with
            tickets := db.tickets ++
              [{ ticket_id := ticket_id, slot_id := pslot.id,
                 spot_id := spot_id, presentments := 0, note := note,
                 serial_number := pslot.reservations }],
            slots := db.slots.map (fun s =>
              if s.id = pslot.id then
                { pslot with reservations := pslot.reservations + 1 }
              else s) }) := by
  simp only [reserve_ticket, hsid, hav]

theorem redeem_ticket_step (db : DB) (spot_id ticket_id : Int) (t0 : PTicket)
    (h : (db.tickets.filter (ticketFilter spot_id ticket_id)).head? = some t0) :
    ∃ db1, redeem_ticket db spot_id ticket_id = Except.ok (t0.presentments, db1) ∧
      (db1.tickets.filter (ticketFilter spot_id ticket_id)).head? =
        some { t0 with presentments := t0.presentments + 1 } := by
  obtain ⟨rest, hf⟩ : ∃ rest,
      db.tickets.filter (ticketFilter spot_id ticket_id) = t0 :: rest := by
    cases hg : db.tickets.filter (ticketFilter spot_id ticket_id) with
    | nil => rw [hg] at h; simp at h
    | cons a rest =>
      rw [hg] at h
      simp only [List.head?_cons, Option.some.injEq] at h
      exact ⟨rest, by rw [← h]⟩
  have ht0 : t0 ∈ db.tickets ∧ ticketFilter spot_id ticket_id t0 = true :=
    List.mem_filter.mp (by rw [hf]; exact List.mem_cons_self _ _)
  have hids : t0.ticket_id = ticket_id ∧ t0.spot_id = spot_id := by
    simpa [ticketFilter] using ht0.2
  refine ⟨{ db with tickets := db.tickets.map (fun t =>
      if t.ticket_id = t0.ticket_id then
        { t0 with presentments := t0.presentments + 1 }
      else t) }, ?_, ?_⟩
  · simp only [redeem_ticket, hf]
  · have hupdmem : ({ t0 with presentments := t0.presentments + 1 } : PTicket) ∈
        (db.tickets.map (fun t =>
          if t.ticket_id = t0.ticket_id then
            { t0 with presentments := t0.presentments + 1 }
          else t)).filter (ticketFilter spot_id ticket_id) := by
      refine List.mem_filter.mpr ⟨?_, ?_⟩
      · refine List.mem_map.mpr ⟨t0, ht0.1, ?_⟩
        simp
      · simp [ticketFilter, hids.1, hids.2]
    have hall : ∀ x ∈ (db.tickets.map (fun t =>
          if t.ticket_id = t0.ticket_id then
            { t0 with presentments := t0.presentments + 1 }
          else t)).filter (ticketFilter spot_id ticket_id),
        x = { t0 with presentments := t0.presentments + 1 } := by
      intro x hx
      obtain ⟨hxm, hxp⟩ := List.mem_filter.mp hx
      obtain ⟨u, _, hu⟩ := List.mem_map.mp hxm
      by_cases hc : u.ticket_id = t0.ticket_id
      · rw [if_pos hc] at hu; exact hu.symm
      · rw [if_neg hc] at hu
        have hxid : x.ticket_id = ticket_id := by
          have := (by simpa [ticketFilter] using hxp :
            x.ticket_id = ticket_id ∧ x.spot_id = spot_id)
          exact this.1
        rw [← hu] at hxid
        exact absurd (hxid.trans hids.1.symm) hc
    cases hg : (db.tickets.map (fun t =>
          if t.ticket_id = t0.ticket_id then
            { t0 with presentments := t0.presentments + 1 }
          else t)).filter (ticketFilter spot_id ticket_id) with
    | nil => rw [hg] at hupdmem; simp at hupdmem
    | cons y ys =>
      have hy : y = { t0 with presentments := t0.presentments + 1 } :=
        hall y (by rw [hg]; exact List.mem_cons_self _ _)
      simp [hy]

theorem redeemSeq_head (db : DB) (spot_id ticket_id : Int) (M : Nat)
    (t0 : PTicket)
    (h : (db.tickets.filter (ticketFilter spot_id ticket_id)).head? = some t0) :
    ∃ db2, redeemSeq db spot_id ticket_id M =
      Except.ok (seqFrom t0.presentments M, db2) := by
  induction M generalizing db t0 with
  | zero => exact ⟨db, rfl⟩
  | succ n ih =>
    obtain ⟨db1, hred, hhead⟩ := redeem_ticket_step db spot_id ticket_id t0 h
    obtain ⟨db2, hseq⟩ := ih db1 { t0 with presentments := t0.presentments + 1 } hhead
    refine ⟨db2, ?_⟩
    simp only [redeemSeq, hred, seqFrom]
    rw [show ({ t0 with presentments := t0.presentments + 1 } : PTicket).presentments
          = t0.presentments + 1 from rfl] at hseq
    rw [hseq]

theorem seqFrom_eq_range (p : Int) (M : Nat) :
    seqFrom p M = (List.range M).map (fun i : Nat => p + (i : Int)) := by
  induction M generalizing p with
  | zero => rfl
  | succ n ih =>
    rw [List.range_succ_eq_map, List.map_cons, List.map_map]
    show p :: seqFrom (p + 1) n = _
    rw [ih]
    congr 1
    · simp
    · congr 1
      funext i
      simp only [Function.comp]
      push_cast
      ring

/-! ### Claims -/

/-- C2: for every `spot_id` and time `now`, `get_available` returns exactly
the slots whose `spot_id` matches, whose `reservations` counter is at most
`capacity`, and whose `start` is at least `now` (a permutation of the filtered
table, so exact also in multiplicity), ordered ascending by `start`.  The
embedding of the function is a pure function of the database value, matching
the write-free SELECT in the source. -/
theorem get_available_exact_sorted (db : DB) (spot_id now : Int) :
    (∀ s : PSlot, s ∈ get_available db spot_id now ↔
      s ∈ db.slots ∧ s.reservations ≤ s.capacity ∧ s.spot_id = spot_id ∧
        s.start ≥ now) ∧
    List.Sorted slotLE (get_available db spot_id now) ∧
    (get_available db spot_id now).Perm
      (db.slots.filter (availableFilter spot_id now)) :=
  ⟨mem_get_available db spot_id now, sorted_get_available db spot_id now,
    List.perm_insertionSort slotLE _⟩

/-- C1: a reservation against a spot whose earliest available slot has
`reservations = capacity` still succeeds, and afterwards no slot with that
slot's id appears in the availability listing. -/
theorem reserve_at_capacity_succeeds_then_unavailable
    (db : DB) (spot_name : String) (note : Option String)
    (ticket_id now spot_id : Int) (s : PSlot) (rest : List PSlot)
    (hsid : get_spot_id db spot_name = Except.ok spot_id)
    (hav : get_available db spot_id now = s :: rest)
    (hcap : s.reservations = s.capacity) :
    ∃ ct db2, reserve_ticket db spot_name note ticket_id now =
        Except.ok (some ct, db2) ∧
      ∀ t ∈ get_available db2 spot_id now, t.id ≠ s.id := by
  refine ⟨_, _,
    reserve_ticket_success db spot_name note ticket_id now spot_id s rest
      hsid hav, ?_⟩
  intro t ht
  obtain ⟨htm, hres, hspot, hstart⟩ := (mem_get_available _ spot_id now t).mp ht
  have htm' : t ∈ db.slots.map (fun u =>
      if u.id = s.id then { s with reservations := s.reservations + 1 }
      else u) := htm
  obtain ⟨u, hu, huf⟩ := List.mem_map.mp htm'
  by_cases hc : u.id = s.id
  · rw [if_pos hc] at huf
    have h1 : ({ s with reservations := s.reservations + 1 } : PSlot).reservations
        = s.reservations + 1 := rfl
    have h2 : ({ s with reservations := s.reservations + 1 } : PSlot).capacity
        = s.capacity := rfl
    rw [← huf, h1, h2] at hres
    omega
  · rw [if_neg hc] at huf
    rw [← huf]
    exact hc

/-- C1 witness: on `dbA`, whose only slot is at full capacity, the
reservation succeeds and the slot disappears from the listing. -/
theorem reserve_at_capacity_concrete :
    ∃ ct db2, reserve_ticket dbA "A" none 5 50 = Except.ok (some ct, db2) ∧
      ∀ t ∈ get_available db2 1 50, t.id ≠ slotA.id :=
  reserve_at_capacity_succeeds_then_unavailable dbA "A" none 5 50 1 slotA []
    (by decide) (by decide) (by decide)

/-- C3: a successful reservation appends a ticket row whose `serial_number`
is the chosen slot's `reservations` value before the increment, and leaves
every stored row with the chosen slot's id carrying `reservations + 1`. -/
theorem reserve_serial_number_preincrement
    (db : DB) (spot_name : String) (note : Option String)
    (ticket_id now spot_id : Int) (pslot : PSlot) (rest : List PSlot)
    (hsid : get_spot_id db spot_name = Except.ok spot_id)
    (hav : get_available db spot_id now = pslot :: rest) :
    ∃ ct db2, reserve_ticket db spot_name note ticket_id now =
        Except.ok (some ct, db2) ∧
      db2.tickets = db.tickets ++
        [{ ticket_id := ticket_id, slot_id := pslot.id, spot_id := spot_id,
           presentments := 0, note := note,
           serial_number := pslot.reservations }] ∧
      ({ pslot with reservations := pslot.reservations + 1 } : PSlot) ∈
        db2.slots ∧
      ∀ t ∈ db2.slots, t.id = pslot.id →
        t.reservations = pslot.reservations + 1 := by
  refine ⟨_, _,
    reserve_ticket_success db spot_name note ticket_id now spot_id pslot rest
      hsid hav, rfl, ?_, ?_⟩
  · have hmem : pslot ∈ db.slots := by
      have hm : pslot ∈ get_available db spot_id now := by
        rw [hav]; exact List.mem_cons_self _ _
      exact ((mem_get_available db spot_id now pslot).mp hm).1
    have hmap := List.mem_map_of_mem (fun u =>
        if u.id = pslot.id then
          { pslot with reservations := pslot.reservations + 1 }
        else u) hmem
    simpa using hmap
  · intro t htm hid
    have htm' : t ∈ db.slots.map (fun u =>
        if u.id = pslot.id then
          { pslot with reservations := pslot.reservations + 1 }
        else u) := htm
    obtain ⟨u, hu, huf⟩ := List.mem_map.mp htm'
    by_cases hc : u.id = pslot.id
    · rw [if_pos hc] at huf
      rw [← huf]
    · rw [if_neg hc] at huf
      rw [← huf] at hid
      exact absurd hid hc

/-- C3 witness: on `dbA` the issued ticket's `serial_number` is `1`, the
pre-increment counter, and the stored counter becomes `2`. -/
theorem reserve_serial_concrete :
    ∃ ct db2, reserve_ticket dbA "A" none 5 50 = Except.ok (some ct, db2) ∧
      db2.tickets = dbA.tickets ++
        [{ ticket_id := 5, slot_id := slotA.id, spot_id := 1,
           presentments := 0, note := none,
           serial_number := slotA.reservations }] ∧
      ({ slotA with reservations := slotA.reservations + 1 } : PSlot) ∈
        db2.slots ∧
      ∀ t ∈ db2.slots, t.id = slotA.id →
        t.reservations = slotA.reservations + 1 :=
  reserve_serial_number_preincrement dbA "A" none 5 50 1 slotA []
    (by decide) (by decide)

/-- C4: redeeming an existing ticket returns the pre-increment
`presentments` value and stores the value incremented by one, and redeeming
the same ticket `M` times sequentially from `presentments = 0` returns the
sequence `0, 1, ..., M-1`. -/
theorem redeem_preincrement_sequence
    (db : DB) (spot_id ticket_id : Int) (M : Nat) (t0 : PTicket)
    (rest : List PTicket)
    (h : db.tickets.filter (ticketFilter spot_id ticket_id) = t0 :: rest)
    (h0 : t0.presentments = 0) :
    (∃ db1, redeem_ticket db spot_id ticket_id = Except.ok (0, db1) ∧
      (db1.tickets.filter (ticketFilter spot_id ticket_id)).head? =
        some { t0 with presentments := 1 }) ∧
    ∃ db2, redeemSeq db spot_id ticket_id M =
      Except.ok ((List.range M).map (fun i : Nat => (i : Int)), db2) := by
  have hh : (db.tickets.filter (ticketFilter spot_id ticket_id)).head? =
      some t0 := by rw [h]; rfl
  constructor
  · obtain ⟨db1, hred, hhead⟩ := redeem_ticket_step db spot_id ticket_id t0 hh
    rw [h0] at hred hhead
    exact ⟨db1, hred, by simpa using hhead⟩
  · obtain ⟨db2, hseq⟩ := redeemSeq_head db spot_id ticket_id M t0 hh
    refine ⟨db2, ?_⟩
    rw [hseq, h0, seqFrom_eq_range]
    simp

/-- C4 witness: redeeming ticket `77` of `dbA` three times returns
`[0, 1, 2]`. -/
theorem redeem_sequence_concrete :
    (∃ db1, redeem_ticket dbA 1 77 = Except.ok (0, db1) ∧
      (db1.tickets.filter (ticketFilter 1 77)).head? =
        some { ticketA with presentments := 1 }) ∧
    ∃ db2, redeemSeq dbA 1 77 3 =
      Except.ok ((List.range 3).map (fun i : Nat => (i : Int)), db2) :=
  redeem_preincrement_sequence dbA 1 77 3 ticketA [] (by decide) (by decide)

/-- C5: when the spot resolves but no slot is available, `reserve_ticket`
returns the Python `None` (`Except.ok (none, db)`, with the database
unchanged) and in particular raises no exception. -/
theorem reserve_no_availability_ok_none
    (db : DB) (spot_name : String) (note : Option String)
    (ticket_id now spot_id : Int)
    (hsid : get_spot_id db spot_name = Except.ok spot_id)
    (hav : get_available db spot_id now = []) :
    reserve_ticket db spot_name note ticket_id now = Except.ok (none, db) ∧
      ∀ e : Err, reserve_ticket db spot_name note ticket_id now ≠
        Except.error e := by
  have hok : reserve_ticket db spot_name note ticket_id now =
      Except.ok (none, db) := by
    simp only [reserve_ticket, hsid, hav]
  exact ⟨hok, fun e hc => Except.noConfusion (hok.symm.trans hc)⟩

/-- C5 witness: spot `B` of `dbB` has no slots; reserving returns the
explicit empty result. -/
theorem reserve_empty_concrete :
    reserve_ticket dbB "B" none 6 50 = Except.ok (none, dbB) ∧
      ∀ e : Err, reserve_ticket dbB "B" none 6 50 ≠ Except.error e :=
  reserve_no_availability_ok_none dbB "B" none 6 50 2 (by decide) (by decide)

/-- C6: looking up a spot name with zero matching rows raises the
`... associated with 0 IDs` exception, a name with `n ≥ 2` matching rows
raises the distinct `... associated with n IDs` exception, and redeeming a
`(ticket_id, spot_id)` pair with no matching ticket row raises
`No ticket issuance found`; each outcome is an `Except.error`, not a
returned value. -/
theorem lookup_and_redeem_error_paths
    (db : DB) (name1 name2 : String) (spot_id ticket_id : Int) (n : Nat)
    (h1 : (db.spots.filter (fun s => decide (s.name = name1))).length = 0)
    (h2 : (db.spots.filter (fun s => decide (s.name = name2))).length = n)
    (hn : 2 ≤ n)
    (h3 : db.tickets.filter (ticketFilter spot_id ticket_id) = []) :
    get_spot_id db name1 =
      Except.error (Err.spotNameAssociatedWithIDs name1 0) ∧
    get_spot_id db name2 =
      Except.error (Err.spotNameAssociatedWithIDs name2 n) ∧
    Err.spotNameAssociatedWithIDs name2 n ≠
      Err.spotNameAssociatedWithIDs name2 0 ∧
    redeem_ticket db spot_id ticket_id =
      Except.error (Err.noTicketIssuanceFound ticket_id) := by
  have hf1 : db.spots.filter (fun s => decide (s.name = name1)) = [] :=
    List.length_eq_zero.mp h1
  refine ⟨?_, ?_, ?_, ?_⟩
  · simp [get_spot_id, hf1]
  · cases hf2 : db.spots.filter (fun s => decide (s.name = name2)) with
    | nil => rw [hf2] at h2; simp at h2; omega
    | cons a tail =>
      cases tail with
      | nil => rw [hf2] at h2; simp at h2; omega
      | cons b tail2 =>
        rw [hf2] at h2
        simp [get_spot_id, hf2, h2]
  · intro hc
    injection hc with ha hb
    omega
  · simp [redeem_ticket, h3]

/-- C6 witness: in `dbC` the name `Z` matches no spot row, the name `C`
matches two rows, and no ticket row matches `(8, 9)`. -/
theorem error_paths_concrete :
    get_spot_id dbC "Z" =
      Except.error (Err.spotNameAssociatedWithIDs "Z" 0) ∧
    get_spot_id dbC "C" =
      Except.error (Err.spotNameAssociatedWithIDs "C" 2) ∧
    Err.spotNameAssociatedWithIDs "C" 2 ≠
      Err.spotNameAssociatedWithIDs "C" 0 ∧
    redeem_ticket dbC 9 8 =
      Except.error (Err.noTicketIssuanceFound 8) :=
  lookup_and_redeem_error_paths dbC "Z" "C" 9 8 2
    (by decide) (by decide) (by decide) (by decide)

/-- C7 counterexample: on `dbA` the reservation succeeds, the stored slot
has `capacity = 1`, yet the returned view's embedded slot carries
`capacity = 8192` (the pydantic default), so the view does not carry the
chosen slot's stored capacity. -/
theorem reserve_view_capacity_not_stored :
    reserve_ticket dbA "A" none 5 50 =
      Except.ok (some ctA,
        { spots := [spotA], slots := [{ slotA with reservations := 2 }],
          tickets := [ticketA,
            { ticket_id := 5, slot_id := 10, spot_id := 1,
              presentments := 0, note := none, serial_number := 1 }] }) ∧
    dbA.slots = [slotA] ∧ slotA.capacity = 1 ∧
    ctA.slot.capacity = some 8192 ∧
    ctA.slot.capacity ≠ some slotA.capacity := by
  decide

/-- C7 amended: every successful reservation returns a fully determined
Ticket view: the embedded slot view carries the chosen slot's stored
`start` and `note`, its `end` when that is non-null and nonzero (`None`
otherwise), and the constant pydantic default capacity `8192` (not the
stored capacity); the view carries the spot name, spot id, the new ticket
id and the caller's note. -/
theorem reserve_ticket_view
    (db : DB) (spot_name : String) (note : Option String)
    (ticket_id now spot_id : Int) (pslot : PSlot) (rest : List PSlot)
    (hsid : get_spot_id db spot_name = Except.ok spot_id)
    (hav : get_available db spot_id now = pslot :: rest) :
    ∃ db2, reserve_ticket db spot_name note ticket_id now =
      Except.ok (some
        { slot :=
            { start := { seconds := pslot.start },
              «end» :=
                match pslot.«end» with
                | some e => if e = 0 then none else some { seconds := e }
                | none => none,
              capacity := some 8192,
              note := pslot.note },
          spot_name := spot_name, spot_id := spot_id, ticket_id := ticket_id,
          note := note }, db2) :=
  ⟨_, reserve_ticket_success db spot_name note ticket_id now spot_id pslot
    rest hsid hav⟩

/-- C7 witness: the fully determined view returned on `dbA`. -/
theorem reserve_view_concrete :
    ∃ db2, reserve_ticket dbA "A" none 5 50 =
      Except.ok (some
        { slot :=
            { start := { seconds := slotA.start },
              «end» :=
                match slotA.«end» with
                | some e => if e = 0 then none else some { seconds := e }
                | none => none,
              capacity := some 8192,
              note := slotA.note },
          spot_name := "A", spot_id := 1, ticket_id := 5,
          note := none }, db2) :=
  reserve_ticket_view dbA "A" none 5 50 1 slotA [] (by decide) (by decide)

/-- C8 counterexample: a slot view with no supplied capacity validates to
capacity `8192`, not `1`. -/
theorem cslot_capacity_default_not_one :
    mkCSlot { seconds := 0 } none none none =
      Except.ok { start := { seconds := 0 }, «end» := none,
                  capacity := some 8192, note := none } ∧
    some (8192 : Int) ≠ some (1 : Int) := by
  decide

/-- C8 amended: an unsupplied capacity defaults to `8192` (and `make_slot`
stores that default), while a supplied integer capacity is accepted exactly
when `0 ≤ capacity ≤ 8192` and is then kept as given. -/
theorem cslot_capacity_default_and_bounds
    (st : CUnixTime) (e : Option CUnixTime) (nt : Option String)
    (c spot_id slot_id : Int) :
    mkCSlot st e none nt =
      Except.ok { start := st, «end» := e, capacity := some 8192,
                  note := nt } ∧
    (0 ≤ c ∧ c ≤ 8192 → mkCSlot st e (some (some c)) nt =
      Except.ok { start := st, «end» := e, capacity := some c,
                  note := nt }) ∧
    (¬(0 ≤ c ∧ c ≤ 8192) → mkCSlot st e (some (some c)) nt =
      Except.error "capacity out of range") ∧
    make_slot { start := st, «end» := e, capacity := some 8192, note := nt }
        spot_id slot_id =
      Except.ok { id := slot_id, spot_id := spot_id, start := st.seconds,
                  «end» := e.map CUnixTime.seconds, capacity := 8192,
                  note := nt, reservations := 0 } := by
  refine ⟨rfl, fun h => ?_, fun h => ?_, rfl⟩
  · simp [mkCSlot, h]
  · simp [mkCSlot, h]

/-- C8 witness: a supplied in-range capacity `5` is kept and an
out-of-range capacity `9000` is rejected. -/
theorem cslot_capacity_concrete :
    mkCSlot { seconds := 3 } none (some (some 5)) none =
      Except.ok { start := { seconds := 3 }, «end» := none,
                  capacity := some 5, note := none } ∧
    mkCSlot { seconds := 3 } none (some (some 9000)) none =
      Except.error "capacity out of range" :=
  ⟨(cslot_capacity_default_and_bounds { seconds := 3 } none none 5 0 0).2.1
      (by decide),
   (cslot_capacity_default_and_bounds { seconds := 3 } none none 9000 0 0).2.2.1
      (by decide)⟩

/-- C10: when the chosen slot's stored `end` is unix time `0`, the returned
ticket view's embedded slot has `end = None`, because Python truthiness
treats `0` like an absent `end`. -/
theorem reserve_zero_end_becomes_none
    (db : DB) (spot_name : String) (note : Option String)
    (ticket_id now spot_id : Int) (pslot : PSlot) (rest : List PSlot)
    (hsid : get_spot_id db spot_name = Except.ok spot_id)
    (hav : get_available db spot_id now = pslot :: rest)
    (hend : pslot.«end» = some 0) :
    ∃ ct db2, reserve_ticket db spot_name note ticket_id now =
        Except.ok (some ct, db2) ∧ ct.slot.«end» = none := by
  refine ⟨_, _,
    reserve_ticket_success db spot_name note ticket_id now spot_id pslot rest
      hsid hav, ?_⟩
  simp [hend]

/-- C10 witness: `slotA` stores `end = some 0` and the reservation on `dbA`
returns a view with `end = none`. -/
theorem reserve_zero_end_concrete :
    ∃ ct db2, reserve_ticket dbA "A" none 5 50 =
        Except.ok (some ct, db2) ∧ ct.slot.«end» = none :=
  reserve_zero_end_becomes_none dbA "A" none 5 50 1 slotA []
    (by decide) (by decide) (by decide)
